import Mathlib

/-!
Shallow embedding of the weaver-admin dashboard (src/src/App.tsx).

The component keeps five pieces of state (`status`, `logs`, `service`,
`loading`, `error`), refreshes them from three admin endpoints, and renders
a view tree from them.  We embed:

* the TypeScript interfaces `Session`, `Subagent`, `SystemStatus` as
  structures;
* the component state as `ViewState`;
* each fetch handler (`fetchStatus`, `fetchLogs`, `fetchService`) as an
  explicit state-transition function on `ViewState`, parametrised by the
  outcome of the HTTP request;
* the JSX render as a function `render : ViewState → Option View`, where
  `none` encodes a thrown render-time exception (the unguarded
  `split('-')[1].toUpperCase()` on line 128 of App.tsx);
* the `useEffect` polling schedule (immediate round plus `setInterval`
  every 5000 ms, cancelled by `clearInterval` on teardown) as a discrete
  per-second schedule `pollFires`.

JavaScript string primitives used by the source (`String.prototype.split`
with a one-character separator, `String.prototype.toUpperCase`,
`String.prototype.includes`) are embedded as structurally recursive
functions on `List Char`, so every definition evaluates by `decide`.
-/

namespace WeaverAdmin

/-- Embedding of JS `hay.startsWith(needle)` on character lists (helper for
`includesChars`). -/
def startsWithChars : List Char → List Char → Bool
  | [], _ => true
  | _ :: _, [] => false
  | a :: as, b :: bs => a == b && startsWithChars as bs

/-- Embedding of JS `hay.includes(needle)` (substring test), as used by
`window.location.hostname.includes('operator.onl')` in `getApiBase`. -/
def includesChars (needle : List Char) : List Char → Bool
  | [] => startsWithChars needle []
  | b :: bs => startsWithChars needle (b :: bs) || includesChars needle bs

/-- Embedding of JS `s.split(c)` for a one-character separator: splits a
character list at every occurrence of `c`; the separator is consumed and
empty segments are kept, exactly as in JS (`"a-".split('-') = ["a", ""]`,
`"abc".split('-') = ["abc"]`). -/
def splitChar (c : Char) : List Char → List (List Char)
  | [] => [[]]
  | x :: xs =>
    if x = c then [] :: splitChar c xs
    else
      match splitChar c xs with
      | [] => [[x]]
      | g :: gs => (x :: g) :: gs

/-- Embedding of `model.split('-')` from App.tsx line 128. -/
def jsSplitHyphen (m : String) : List String :=
  (splitChar '-' m.data).map String.mk

/-- Embedding of JS `s.toUpperCase()` (ASCII case mapping). -/
def jsUpper (s : String) : String :=
  String.mk (s.data.map Char.toUpper)

/-- `interface Session` from App.tsx. -/
structure Session where
  key : String
  message_count : Nat
  updated : Int
  created : Int
deriving DecidableEq

/-- `interface Subagent` from App.tsx. -/
structure Subagent where
  id : String
  task : String
  label : String
  status : String
  created : Int
deriving DecidableEq

/-- `interface SystemStatus` from App.tsx. -/
structure SystemStatus where
  model : String
  ready : Bool
  sessions : List Session
  subagents : List Subagent
  uptime : String
  workspace : String
deriving DecidableEq

/-- The five `useState` hooks of the `App` component. -/
structure ViewState where
  status : Option SystemStatus
  logs : String
  service : String
  loading : Bool
  error : Option String
deriving DecidableEq

/-- The initial component state:
`useState(null)`, `useState('')`, `useState('')`, `useState(true)`,
`useState(null)`. -/
def initialViewState : ViewState :=
  { status := none, logs := "", service := "", loading := true, error := none }

/-- `getApiBase` from App.tsx lines 34-37, parametrised by the browser host
name (`window.location.hostname`). -/
def getApiBase (hostname : String) : String :=
  if includesChars "operator.onl".data hostname.data then
    "https://weaver.operator.onl"
  else
    "https://weaver.onl"

/-- Outcome of one request to `/admin/status`, as distinguished by
`fetchStatus` (App.tsx lines 39-51): the guarded `!res.ok` throw, a
`res.json()` parse throw, a network-level rejection, or success with a
parsed `SystemStatus` payload. -/
inductive StatusFetchOutcome where
  | success (data : SystemStatus)
  | httpFailure
  | parseFailure (msg : String)
  | networkFailure (msg : String)
deriving DecidableEq

/-- The `err.message` observed by the `catch` block of `fetchStatus` for
each failing outcome (`none` on success): the `!res.ok` branch throws
`new Error('Failed to fetch status')`, the other failures carry their own
message. -/
def statusFailureMessage : StatusFetchOutcome → Option String
  | StatusFetchOutcome.success _ => none
  | StatusFetchOutcome.httpFailure => some "Failed to fetch status"
  | StatusFetchOutcome.parseFailure m => some m
  | StatusFetchOutcome.networkFailure m => some m

/-- `fetchStatus` (App.tsx lines 39-51) as a state transition.  On success
it stores the payload and clears the error; every failure is caught and
stored in `error` with `status` untouched; the `finally` block clears
`loading` in all cases. -/
def fetchStatus (v : ViewState) : StatusFetchOutcome → ViewState
  | StatusFetchOutcome.success d =>
      { v with status := some d, error := none, loading := false }
  | StatusFetchOutcome.httpFailure =>
      { v with error := some "Failed to fetch status", loading := false }
  | StatusFetchOutcome.parseFailure m =>
      { v with error := some m, loading := false }
  | StatusFetchOutcome.networkFailure m =>
      { v with error := some m, loading := false }

/-- An HTTP response as seen by `fetchLogs` / `fetchService`: the `ok`
flag (which those handlers never read), and the result of `res.json()` —
`none` when the body is not parseable JSON (the call throws), otherwise
the value of the optional `output` field. -/
structure TextResponse where
  ok : Bool
  body : Option (Option String)
deriving DecidableEq

/-- `fetchLogs` (App.tsx lines 53-59) as a state transition.  The request
outcome is `none` for a network-level rejection.  Note there is no
`res.ok` check: any response whose body parses as JSON stores
`data.output || ''`; all thrown failures are swallowed by the empty
`catch`. -/
def fetchLogs (v : ViewState) : Option TextResponse → ViewState
  | none => v
  | some r =>
    match r.body with
    | none => v
    | some out => { v with logs := out.getD "" }

/-- `fetchService` (App.tsx lines 61-67): identical to `fetchLogs` but
targeting the `service` field. -/
def fetchService (v : ViewState) : Option TextResponse → ViewState
  | none => v
  | some r =>
    match r.body with
    | none => v
    | some out => { v with service := out.getD "" }

/-- The Core Model stat card value from App.tsx line 128:
`status?.model.split('-')[1].toUpperCase() || 'N/A'`.
When `status` is null the optional chain yields `undefined`, which is
falsy, so the card shows `"N/A"`.  When `status` is present the code
indexes segment 1 of the hyphen split: if that segment does not exist
(`split` produced fewer than two segments) the `.toUpperCase()` call
throws a TypeError — encoded here as `none`.  Otherwise the uppercased
segment is shown unless it is the empty string (falsy), in which case the
`|| 'N/A'` fallback applies. -/
def modelLabel (status : Option SystemStatus) : Option String :=
  match status with
  | none => some "N/A"
  | some st =>
    match (jsSplitHyphen st.model)[1]? with
    | none => none
    | some seg => some (if jsUpper seg = "" then "N/A" else jsUpper seg)

/-- The observable pieces of the dashboard branch of the render (App.tsx
lines 92-220): header uptime text and ready light, error banner, the four
stat-card values, the keyed session and subagent lists with their
empty-state flags, and the two raw text panels. -/
structure Dashboard where
  uptimeText : String
  readyLight : Bool
  errorBanner : Option String
  sessionCount : Nat
  subagentCount : Nat
  coreModel : String
  coreModelSub : Option String
  workspaceSub : Option String
  sessionKeys : List String
  sessionsEmptyState : Bool
  subagentIds : List String
  subagentsEmptyState : Bool
  logsText : String
  serviceText : String
deriving DecidableEq

/-- What `App` returns: the full-screen initializing placeholder (App.tsx
lines 81-90, with no other panels), or the dashboard tree. -/
inductive View where
  | initializing
  | dashboard (d : Dashboard)
deriving DecidableEq

/-- The dashboard tree produced by the main return of `App` (lines
92-220), given the component state and the already-computed Core Model
card value `lbl`; each field is transcribed from the corresponding JSX
expression. -/
def renderDashboard (v : ViewState) (lbl : String) : Dashboard :=
  { uptimeText :=
      match v.status with
      | some st => if st.uptime = "" then "0s" else st.uptime
      | none => "0s"
    readyLight := (v.status.map (fun st => st.ready)).getD false
    errorBanner :=
      match v.error with
      | none => none
      | some e => if e = "" then none else some e
    sessionCount := (v.status.map (fun st => st.sessions.length)).getD 0
    subagentCount := (v.status.map (fun st => st.subagents.length)).getD 0
    coreModel := lbl
    coreModelSub := v.status.map (fun st => st.model)
    workspaceSub := v.status.map (fun st => st.workspace)
    sessionKeys :=
      (v.status.map (fun st => st.sessions.map Session.key)).getD []
    sessionsEmptyState :=
      match v.status with
      | some st => st.sessions.length == 0
      | none => false
    subagentIds :=
      (v.status.map (fun st => st.subagents.map Subagent.id)).getD []
    subagentsEmptyState :=
      match v.status with
      | some st => st.subagents.length == 0
      | none => false
    logsText := if v.logs = "" then "No logs available" else v.logs
    serviceText :=
      if v.service = "" then "Loading service status..." else v.service }

/-- The render body of `App` as a function of the component state.
`none` encodes a thrown exception during rendering (the unguarded model
split on line 128).  The guard `loading && !status` (App.tsx line 81)
selects the full-screen initializing placeholder; otherwise the dashboard
is produced. -/
def render (v : ViewState) : Option View :=
  if v.loading && v.status.isNone then
    some View.initializing
  else
    match modelLabel v.status with
    | none => none
    | some lbl => some (View.dashboard (renderDashboard v lbl))

/-- The polling schedule of the `useEffect` hook (App.tsx lines 69-79) on
a discrete one-second time line: a round of fetches fires at activation
(t = 0) and at every `setInterval` tick (every 5 seconds), except at or
after the teardown instant (`clearInterval` cancels the repeating
trigger, so no tick at or past teardown fires). -/
def pollFires (teardown : Option Nat) (t : Nat) : Bool :=
  (match teardown with
   | none => true
   | some td => decide (t < td)) && decide (t % 5 = 0)

/-- The three endpoints hit by every poll round (App.tsx lines 70-76). -/
def pollEndpoints : List String :=
  ["/admin/status", "/admin/logs", "/admin/service"]

/-- The fetches issued at instant `t`: each firing round issues one fetch
per endpoint, a non-firing instant issues none. -/
def fetchesIssued (teardown : Option Nat) (t : Nat) : List String :=
  if pollFires teardown t then pollEndpoints else []

/-- Taken from the claim wording, not from the source: "the uppercase of
the entire text after the first hyphen".  `joinHyphen` re-joins the split
segments, so `afterFirstHyphen m` is everything in `m` past the first
hyphen (the compared spec-side reading of the model-label derivation). -/
def joinHyphen : List String → String
  | [] => ""
  | [s] => s
  | s :: rest => s ++ "-" ++ joinHyphen rest

/-- The entire text of `m` after its first hyphen (spec-side reading used
to compare against the code's second-segment behaviour). -/
def afterFirstHyphen (m : String) : String :=
  joinHyphen (jsSplitHyphen m).tail

/-- A concrete status payload whose model string has no hyphen. -/
def noHyphenStatus : SystemStatus :=
  { model := "gpt4", ready := true, sessions := [], subagents := []
    uptime := "1h", workspace := "/srv/weaver" }

/-- A rendered-view state holding `noHyphenStatus`. -/
def noHyphenView : ViewState :=
  { status := some noHyphenStatus, logs := "", service := ""
    loading := false, error := none }

/-- A concrete status payload whose model string has two hyphens. -/
def multiHyphenStatus : SystemStatus :=
  { model := "claude-3-opus", ready := true, sessions := [], subagents := []
    uptime := "1h", workspace := "/srv/weaver" }

/-- Concrete sessions and subagents for evaluating the round-trip. -/
def sampleSessionA : Session :=
  { key := "sess-a", message_count := 3, updated := 100, created := 50 }

/-- Second concrete session. -/
def sampleSessionB : Session :=
  { key := "sess-b", message_count := 7, updated := 200, created := 60 }

/-- First concrete subagent. -/
def sampleAgentA : Subagent :=
  { id := "agent-1", task := "index repo", label := "Indexer"
    status := "running", created := 70 }

/-- Second concrete subagent. -/
def sampleAgentB : Subagent :=
  { id := "agent-2", task := "summarize", label := ""
    status := "queued", created := 80 }

/-- A concrete well-formed status payload with two sessions and two
subagents. -/
def sampleStatus : SystemStatus :=
  { model := "weaver-x1", ready := true
    sessions := [sampleSessionA, sampleSessionB]
    subagents := [sampleAgentA, sampleAgentB]
    uptime := "2h", workspace := "/srv/weaver" }

/-- A concrete status payload with empty session and subagent lists. -/
def emptyStatus : SystemStatus :=
  { model := "weaver-x1", ready := true, sessions := [], subagents := []
    uptime := "2h", workspace := "/srv/weaver" }

/-- A rendered-view state holding `emptyStatus`. -/
def emptyView : ViewState :=
  { status := some emptyStatus, logs := "", service := ""
    loading := false, error := none }

/-- A view state holding prior text in every panel, for observing which
fetch outcomes overwrite it. -/
def priorView : ViewState :=
  { status := none, logs := "prior logs", service := "prior service"
    loading := false, error := none }

/-! ### Helper lemmas -/

/-- Splitting a list that does not contain the separator yields the whole
list as the single segment. -/
theorem splitChar_of_not_mem {c : Char} {l : List Char} (h : c ∉ l) :
    splitChar c l = [l] := by
  induction l with
  | nil => rfl
  | cons x xs ih =>
    simp only [List.mem_cons, not_or] at h
    simp [splitChar, Ne.symm h.1, ih h.2]

/-- A model string with no hyphen splits into itself alone. -/
theorem jsSplitHyphen_of_no_hyphen {m : String} (h : '-' ∉ m.data) :
    jsSplitHyphen m = [m] := by
  unfold jsSplitHyphen
  rw [splitChar_of_not_mem h]
  rfl

/-- Uppercasing a string yields the empty string exactly for the empty
string. -/
theorem jsUpper_eq_empty_iff (s : String) : jsUpper s = "" ↔ s = "" := by
  obtain ⟨l⟩ := s
  cases l with
  | nil => exact Iff.intro (fun _ => rfl) (fun _ => rfl)
  | cons a as =>
    constructor
    · intro hc
      exact absurd (congrArg String.data hc) (by simp [jsUpper])
    · intro hc
      exact absurd (congrArg String.data hc) (by simp)

/-! ### Claim C1 -/

/-- Claim C1 as stated is false on the code: with `status` present and a
hyphen-free model string, the Core Model card does not render the
fallback "N/A"; the derivation faults (App.tsx line 128 calls
`.toUpperCase()` on `undefined`) and the whole render throws, encoded by
`render = none`. -/
theorem claim_C1_counterexample :
    modelLabel (some noHyphenStatus) ≠ some "N/A"
    ∧ render noHyphenView = none := by
  exact ⟨by decide, by decide⟩

/-- Claim C1 (amended): when `status` is present and the model string
contains no hyphen, the model-label derivation propagates an unhandled
fault and the render throws (produces no view); the literal "N/A"
fallback is rendered only when `status` is absent. -/
theorem claim_C1_amended :
    (∀ (v : ViewState) (st : SystemStatus),
      v.status = some st → '-' ∉ st.model.data → render v = none)
    ∧ (∀ v : ViewState, v.loading = false → v.status = none →
        ∃ d : Dashboard,
          render v = some (View.dashboard d) ∧ d.coreModel = "N/A") := by
  constructor
  · intro v st hv hm
    have hsplit : (jsSplitHyphen st.model)[1]? = none := by
      rw [jsSplitHyphen_of_no_hyphen hm]
      rfl
    simp [render, hv, modelLabel, hsplit]
  · intro v hl hs
    obtain ⟨s, lg, sv, ld, er⟩ := v
    simp only at hl hs
    subst hl
    subst hs
    exact ⟨_, rfl, rfl⟩

/-- `claim_C1_amended` evaluated at concrete states: the no-hyphen view
faults, and the absent-status view renders the "N/A" card. -/
theorem claim_C1_amended_witness :
    render noHyphenView = none
    ∧ ∃ d : Dashboard,
        render { initialViewState with loading := false }
          = some (View.dashboard d) ∧ d.coreModel = "N/A" :=
  ⟨claim_C1_amended.1 noHyphenView noHyphenStatus rfl (by decide),
   claim_C1_amended.2 { initialViewState with loading := false } rfl rfl⟩

/-! ### Claim C2 -/

/-- Claim C2 as stated is false on the code: for the model string
"claude-3-opus" the card shows "3" (the second hyphen-delimited
segment), not "3-OPUS" (the uppercase of the entire text after the first
hyphen). -/
theorem claim_C2_counterexample :
    modelLabel (some multiHyphenStatus) = some "3"
    ∧ jsUpper (afterFirstHyphen multiHyphenStatus.model) = "3-OPUS"
    ∧ modelLabel (some multiHyphenStatus)
        ≠ some (jsUpper (afterFirstHyphen multiHyphenStatus.model)) := by
  exact ⟨by decide, by decide, by decide⟩

/-- Claim C2 (amended): for every model string that splits into at least
two hyphen-delimited segments, the Core Model card shows the uppercase of
the second segment (the text between the first hyphen and the next one,
or the end of the string), except that an empty second segment falls back
to "N/A". -/
theorem claim_C2_amended :
    ∀ (st : SystemStatus) (seg : String),
      (jsSplitHyphen st.model)[1]? = some seg →
      modelLabel (some st) = some (if seg = "" then "N/A" else jsUpper seg) := by
  intro st seg h
  simp only [modelLabel, h]
  by_cases hs : seg = ""
  · subst hs
    simp [jsUpper]
  · have hne : jsUpper seg ≠ "" := fun hc => hs ((jsUpper_eq_empty_iff seg).mp hc)
    simp [hs, hne]

/-- `claim_C2_amended` evaluated on the two-hyphen model string: the
second segment is "3" and the card shows its uppercase. -/
theorem claim_C2_amended_witness :
    (jsSplitHyphen multiHyphenStatus.model)[1]? = some "3"
    ∧ modelLabel (some multiHyphenStatus)
        = some (if "3" = "" then "N/A" else jsUpper "3") :=
  ⟨by decide, claim_C2_amended multiHyphenStatus "3" (by decide)⟩

/-! ### Claim C3 -/

/-- Claim C3: the status fetch, on success, replaces `status` wholesale
and clears `error`; on any failing outcome (non-success HTTP status, JSON
parse failure, network failure) it stores the failure message in `error`
and leaves the prior `status` snapshot untouched. -/
theorem claim_C3_status_fetch :
    ∀ (v : ViewState) (d : SystemStatus) (o : StatusFetchOutcome) (m : String),
      ((fetchStatus v (StatusFetchOutcome.success d)).status = some d
        ∧ (fetchStatus v (StatusFetchOutcome.success d)).error = none)
      ∧ (statusFailureMessage o = some m →
          (fetchStatus v o).status = v.status
            ∧ (fetchStatus v o).error = some m) := by
  intro v d o m
  refine ⟨⟨rfl, rfl⟩, ?_⟩
  intro h
  cases o with
  | success d2 => exact absurd h (by simp [statusFailureMessage])
  | httpFailure =>
    simp only [statusFailureMessage, Option.some.injEq] at h
    subst h
    exact ⟨rfl, rfl⟩
  | parseFailure m2 =>
    simp only [statusFailureMessage, Option.some.injEq] at h
    subst h
    exact ⟨rfl, rfl⟩
  | networkFailure m2 =>
    simp only [statusFailureMessage, Option.some.injEq] at h
    subst h
    exact ⟨rfl, rfl⟩

/-- `claim_C3_status_fetch` evaluated at a concrete failing fetch after a
prior success: the snapshot stays and the banner message is stored. -/
theorem claim_C3_status_fetch_witness :
    (fetchStatus emptyView StatusFetchOutcome.httpFailure).status
        = emptyView.status
    ∧ (fetchStatus emptyView StatusFetchOutcome.httpFailure).error
        = some "Failed to fetch status" :=
  (claim_C3_status_fetch emptyView sampleStatus
    StatusFetchOutcome.httpFailure "Failed to fetch status").2 rfl

/-! ### Claim C4 -/

/-- Claim C4 as stated is false on the code: a logs response with a
non-success HTTP status is not suppressed when its body still parses as
JSON — `fetchLogs` never checks `res.ok`, so the prior log text is
overwritten (here with the empty string) instead of being retained. -/
theorem claim_C4_counterexample :
    (fetchLogs priorView (some { ok := false, body := some none })).logs = ""
    ∧ (fetchLogs priorView (some { ok := false, body := some none })).logs
        ≠ priorView.logs := by
  exact ⟨rfl, by decide⟩

/-- Claim C4 (amended): every *thrown* failure of the logs fetch (network
rejection, or a body that is not parseable JSON — the only throwing paths,
since the HTTP status is never checked) is silently suppressed: the prior
state is fully retained; and in every outcome the logs fetch never touches
`error`, `status`, `service` or `loading`, nor the service fetch `error`,
`status`, `logs` or `loading`. -/
theorem claim_C4_amended :
    ∀ (v : ViewState) (b : Bool),
      fetchLogs v none = v
      ∧ fetchLogs v (some { ok := b, body := none }) = v
      ∧ fetchService v none = v
      ∧ fetchService v (some { ok := b, body := none }) = v
      ∧ (∀ r : Option TextResponse,
          (fetchLogs v r).error = v.error
          ∧ (fetchLogs v r).status = v.status
          ∧ (fetchLogs v r).service = v.service
          ∧ (fetchLogs v r).loading = v.loading
          ∧ (fetchService v r).error = v.error
          ∧ (fetchService v r).status = v.status
          ∧ (fetchService v r).logs = v.logs
          ∧ (fetchService v r).loading = v.loading) := by
  intro v b
  refine ⟨rfl, rfl, rfl, rfl, ?_⟩
  intro r
  rcases r with _ | ⟨o, _ | out⟩ <;>
    exact ⟨rfl, rfl, rfl, rfl, rfl, rfl, rfl, rfl⟩

/-! ### Claim C5 -/

/-- Claim C5: the logs and service fetches never inspect the HTTP `ok`
flag — the resulting state is identical for any two flags over the same
body; any body that parses as JSON counts as success and stores its
`output` field, or the empty string when the field is absent, so an HTTP
error response with a parseable body lacking `output` overwrites the
retained text with the empty string. -/
theorem claim_C5_http_status_ignored :
    ∀ (v : ViewState) (b₁ b₂ : Bool) (body : Option (Option String))
      (s : String),
      fetchLogs v (some { ok := b₁, body := body })
          = fetchLogs v (some { ok := b₂, body := body })
      ∧ fetchService v (some { ok := b₁, body := body })
          = fetchService v (some { ok := b₂, body := body })
      ∧ (fetchLogs v (some { ok := b₁, body := some (some s) })).logs = s
      ∧ (fetchLogs v (some { ok := b₁, body := some none })).logs = ""
      ∧ (fetchService v (some { ok := b₁, body := some (some s) })).service = s
      ∧ (fetchService v (some { ok := b₁, body := some none })).service = ""
      ∧ (fetchLogs priorView (some { ok := false, body := some none })).logs
          = "" := by
  intro v b₁ b₂ body s
  refine ⟨?_, ?_, rfl, rfl, rfl, rfl, rfl⟩
  · rcases body with _ | out <;> rfl
  · rcases body with _ | out <;> rfl

/-! ### Claim C6 -/

/-- Claim C6: for every status payload whose model-label derivation does
not fault, parsing the payload into state and rendering reproduces the
session keys and subagent ids exactly — the rendered key lists equal the
payload lists mapped to their identifiers, in order, with no duplication
and no drop. -/
theorem claim_C6_roundtrip :
    ∀ (st : SystemStatus) (v : ViewState) (lbl : String),
      modelLabel (some st) = some lbl →
      ∃ d : Dashboard,
        render (fetchStatus v (StatusFetchOutcome.success st))
            = some (View.dashboard d)
        ∧ d.sessionKeys = st.sessions.map Session.key
        ∧ d.subagentIds = st.subagents.map Subagent.id := by
  intro st v lbl h
  refine ⟨renderDashboard (fetchStatus v (StatusFetchOutcome.success st)) lbl,
    ?_, rfl, rfl⟩
  simp [render, fetchStatus, h]

/-- `claim_C6_roundtrip` evaluated on a concrete captured payload with two
sessions and two subagents. -/
theorem claim_C6_roundtrip_witness :
    modelLabel (some sampleStatus) = some "X1"
    ∧ ∃ d : Dashboard,
        render (fetchStatus initialViewState
            (StatusFetchOutcome.success sampleStatus))
          = some (View.dashboard d)
        ∧ d.sessionKeys = sampleStatus.sessions.map Session.key
        ∧ d.subagentIds = sampleStatus.subagents.map Subagent.id :=
  ⟨by decide,
   claim_C6_roundtrip sampleStatus initialViewState "X1" (by decide)⟩

/-! ### Claim C7 -/

/-- Claim C7: the poller fires a round at activation (t = 0) and then
every 5 seconds; over the 20-second window `0..20` with no teardown
exactly 5 rounds fire, each issuing one fetch per endpoint (5 fetches per
endpoint in total); at or after the teardown instant no round fires and
no fetch is issued; with teardown at t = 12 only the rounds at 0, 5, 10
fire in that window. -/
theorem claim_C7_polling :
    pollFires none 0 = true
    ∧ (∀ t : Nat, pollFires none t = true ↔ t % 5 = 0)
    ∧ (List.range 21).countP (fun t => pollFires none t) = 5
    ∧ (∀ e : String, e ∈ pollEndpoints →
        ((List.range 21).map (fun t => (fetchesIssued none t).count e)).sum = 5)
    ∧ (∀ (td t : Nat), td ≤ t →
        pollFires (some td) t = false ∧ fetchesIssued (some td) t = [])
    ∧ (List.range 21).countP (fun t => pollFires (some 12) t) = 3 := by
  refine ⟨rfl, ?_, by decide, ?_, ?_, by decide⟩
  · intro t
    simp [pollFires]
  · intro e he
    simp only [pollEndpoints, List.mem_cons, List.not_mem_nil, or_false] at he
    rcases he with rfl | rfl | rfl <;> decide
  · intro td t h
    have hlt : ¬ t < td := Nat.not_lt.mpr h
    exact ⟨by simp [pollFires, hlt], by simp [fetchesIssued, pollFires, hlt]⟩

/-- `claim_C7_polling` evaluated concretely: 5 status fetches across the
20-second window, and nothing fires at t = 15 after a teardown at
t = 12. -/
theorem claim_C7_polling_witness :
    ((List.range 21).map
        (fun t => (fetchesIssued none t).count "/admin/status")).sum = 5
    ∧ (pollFires (some 12) 15 = false ∧ fetchesIssued (some 12) 15 = []) :=
  ⟨claim_C7_polling.2.2.2.1 "/admin/status" (by decide),
   claim_C7_polling.2.2.2.2.1 12 15 (by decide)⟩

/-! ### Claim C8 -/

/-- Claim C8: whenever `status` is present and the view renders, the two
count stat cards show exactly `sessions.length` and `subagents.length`;
an empty sessions array is exactly what turns on the sessions empty-state
placeholder, and in that case the rendered list is empty and the count
card shows 0. -/
theorem claim_C8_stat_cards :
    ∀ (v : ViewState) (st : SystemStatus) (d : Dashboard),
      v.status = some st →
      render v = some (View.dashboard d) →
      d.sessionCount = st.sessions.length
      ∧ d.subagentCount = st.subagents.length
      ∧ (d.sessionsEmptyState = true ↔ st.sessions = [])
      ∧ (st.sessions = [] → d.sessionKeys = [] ∧ d.sessionCount = 0) := by
  intro v st d hv hr
  rcases hml : modelLabel (some st) with _ | lbl
  · rw [render, hv] at hr
    simp [hml] at hr
  · have hd : d = renderDashboard v lbl := by
      rw [render, hv] at hr
      simp only [Option.isNone_some, Bool.and_false, Bool.false_eq_true,
        if_false, hml] at hr
      exact (View.dashboard.injEq _ _).mp (Option.some.injEq _ _ |>.mp hr) |>.symm
    subst hd
    refine ⟨by simp [renderDashboard, hv], by simp [renderDashboard, hv], ?_, ?_⟩
    · simp [renderDashboard, hv, List.length_eq_zero]
    · intro hnil
      constructor
      · simp [renderDashboard, hv, hnil]
      · simp [renderDashboard, hv, hnil]

/-- `claim_C8_stat_cards` evaluated on a rendered view whose payload has
no sessions: the count card shows 0 and the empty-state placeholder is
on. -/
theorem claim_C8_stat_cards_witness :
    ((renderDashboard emptyView "X1").sessionCount = emptyStatus.sessions.length
      ∧ (renderDashboard emptyView "X1").sessionsEmptyState = true)
    ∧ (renderDashboard emptyView "X1").sessionKeys = [] :=
  ⟨⟨(claim_C8_stat_cards emptyView emptyStatus
        (renderDashboard emptyView "X1") rfl (by decide)).1,
    (claim_C8_stat_cards emptyView emptyStatus
        (renderDashboard emptyView "X1") rfl (by decide)).2.2.1.mpr rfl⟩,
   ((claim_C8_stat_cards emptyView emptyStatus
        (renderDashboard emptyView "X1") rfl (by decide)).2.2.2 rfl).1⟩

/-! ### Claim C9 -/

/-- Claim C9: `loading` starts true; every settled status fetch (success
or failure) sets it false; the logs and service fetches never change it;
and the full-screen initializing placeholder is rendered exactly when
`loading` is true and no status has ever been stored. -/
theorem claim_C9_loading :
    initialViewState.loading = true
    ∧ (∀ (v : ViewState) (o : StatusFetchOutcome),
        (fetchStatus v o).loading = false)
    ∧ (∀ (v : ViewState) (r : Option TextResponse),
        (fetchLogs v r).loading = v.loading
          ∧ (fetchService v r).loading = v.loading)
    ∧ (∀ v : ViewState,
        render v = some View.initializing
          ↔ (v.loading = true ∧ v.status = none)) := by
  refine ⟨rfl, ?_, ?_, ?_⟩
  · intro v o
    cases o <;> rfl
  · intro v r
    rcases r with _ | ⟨o, _ | out⟩ <;> exact ⟨rfl, rfl⟩
  · intro v
    rcases hs : v.status with _ | st
    · cases hl : v.loading
      · simp [render, hs, hl, modelLabel]
      · simp [render, hs, hl]
    · cases hl : v.loading <;>
        · rcases hml : modelLabel (some st) with _ | lbl <;>
            simp [render, hs, hl, hml]

/-! ### Claim C10 -/

/-- Claim C10: the endpoint resolver is a pure total function of the host
name, always returning one of the two fixed base URLs: the staging base
exactly when the host name contains the marker substring "operator.onl",
and the production base otherwise. -/
theorem claim_C10_api_base :
    ∀ hn : String,
      (getApiBase hn = "https://weaver.operator.onl"
        ∨ getApiBase hn = "https://weaver.onl")
      ∧ (includesChars "operator.onl".data hn.data = true →
          getApiBase hn = "https://weaver.operator.onl")
      ∧ (includesChars "operator.onl".data hn.data = false →
          getApiBase hn = "https://weaver.onl") := by
  intro hn
  by_cases hc : includesChars "operator.onl".data hn.data = true
  · refine ⟨Or.inl ?_, fun _ => ?_, fun hf => ?_⟩
    · simp [getApiBase, hc]
    · simp [getApiBase, hc]
    · rw [hc] at hf
      exact absurd hf (by decide)
  · have hf : includesChars "operator.onl".data hn.data = false :=
      Bool.not_eq_true _ |>.mp hc
    refine ⟨Or.inr ?_, fun ht => absurd ht hc, fun _ => ?_⟩
    · simp [getApiBase, hf]
    · simp [getApiBase, hf]

/-- `claim_C10_api_base` evaluated at a marker-containing host and at a
plain host. -/
theorem claim_C10_api_base_witness :
    getApiBase "admin.operator.onl" = "https://weaver.operator.onl"
    ∧ getApiBase "weaver-admin.example.com" = "https://weaver.onl" :=
  ⟨(claim_C10_api_base "admin.operator.onl").2.1 (by decide),
   (claim_C10_api_base "weaver-admin.example.com").2.2 (by decide)⟩

end WeaverAdmin
